import Mathlib

/-
Shallow embedding of the drug-availability bot (src/index.ts, src/database.ts).

The embedding models:
  * the sqlite subscriber table and its operations (database.ts) — the table is
    keyed by `chat_id INTEGER PRIMARY KEY` (hence `chat_id` is the rowid and a
    full-table scan returns rows in increasing `chat_id` order, which the list
    order of `DB` mirrors);
  * the availability client `checkDrug`, as a pure function of the outcome of
    the outbound HTTP request (the network/timeout behaviour and the JSON
    payload are an explicit `ApiOutcome` argument);
  * the orchestrator `checkAllDrugs`, the fan-out
    `sendNotificationToSubscribers` and the retry coordinator
    `scheduleRetryForErrors` / the deferred timer callback, as state-passing
    functions over `St` that also emit a trace of externally visible events
    (`Event`): one `apiCall` per availability query, one `fanout`/`fetchSubscribers`
    per notification pass, one `deliver` per message-send attempt, one
    `deactivate` per registry deactivation.

External nondeterminism (API responses per drug, per-recipient delivery
outcomes) is supplied by an `Env` of oracles; a separate invocation of an entry
point may be run against a different `Env`, which models the external world
changing between runs.
-/

set_option autoImplicit false

namespace DrugCheck

/-! ## Subscriber database (src/database.ts) -/

/-- One row of the sqlite `subscribers` table.  The `subscribed_at` column is
never read by the code under verification and is omitted. -/
structure Row where
  chat_id : Int
  username : Option String
  first_name : Option String
  last_name : Option String
  is_active : Bool
deriving Repr, DecidableEq

/-- The `subscribers` table, rows in rowid (= `chat_id`) order. -/
abbrev DB := List Row

/-- The exported `Subscriber` record of database.ts: optional fields are
`undefined` (`none`) when absent. -/
structure Subscriber where
  chatId : Int
  username : Option String
  firstName : Option String
  lastName : Option String
deriving Repr, DecidableEq

/-- JavaScript falsy-coalescing `x || null` / `x || undefined` on an optional
string: an absent value stays absent and the empty string (falsy in JS) is
collapsed to absent as well. -/
def normOpt : Option String → Option String
  | some s => if s = "" then none else some s
  | none => none

/-- The row written by `addSubscriber`: `INSERT OR REPLACE ... VALUES
(@chatId, @username, @firstName, @lastName, 1)` with each optional field passed
through `|| null`. -/
def subscriberRow (s : Subscriber) : Row :=
  { chat_id := s.chatId
    username := normOpt s.username
    first_name := normOpt s.firstName
    last_name := normOpt s.lastName
    is_active := true }

/-- Insertion into the rowid-ordered table with REPLACE semantics: a row with
the same `chat_id` is replaced in place (same rowid), otherwise the row is
inserted at its rowid position. -/
def insertRow (row : Row) : DB → DB
  | [] => [row]
  | r :: rs =>
    if row.chat_id < r.chat_id then row :: r :: rs
    else if row.chat_id = r.chat_id then row :: rs
    else r :: insertRow row rs

/-- `addSubscriber` of database.ts: `INSERT OR REPLACE` with `is_active = 1`,
overwriting every field of any existing row for that `chat_id`. -/
def addSubscriber (s : Subscriber) (db : DB) : DB :=
  insertRow (subscriberRow s) db

/-- `removeSubscriber` of database.ts: runs
`UPDATE subscribers SET is_active = 0 WHERE chat_id = ?` and returns
`result.changes > 0`.  sqlite's change counter counts every row matched by the
WHERE clause of an UPDATE, whether or not the stored value actually differs, so
the returned boolean is "a row with this chat_id exists", not "the row was
active". -/
def removeSubscriber (chatId : Int) (db : DB) : DB × Bool :=
  let changes := (db.filter (fun r => r.chat_id = chatId)).length
  (db.map (fun r => if r.chat_id = chatId then { r with is_active := false } else r),
   decide (0 < changes))

/-- Projection of a stored row to the exported `Subscriber` shape, with the
`row.username || undefined` (etc.) coalescing of `getActiveSubscribers`. -/
def rowToSubscriber (r : Row) : Subscriber :=
  { chatId := r.chat_id
    username := normOpt r.username
    firstName := normOpt r.first_name
    lastName := normOpt r.last_name }

/-- `getActiveSubscribers` of database.ts:
`SELECT chat_id, username, first_name, last_name FROM subscribers WHERE is_active = 1`,
rows in table-scan order. -/
def getActiveSubscribers (db : DB) : List Subscriber :=
  (db.filter (fun r => r.is_active)).map rowToSubscriber

/-- `isSubscribed` of database.ts:
`SELECT is_active FROM subscribers WHERE chat_id = ?` and then
`result?.is_active === 1`. -/
def isSubscribed (chatId : Int) (db : DB) : Bool :=
  match db.find? (fun r => r.chat_id = chatId) with
  | some r => r.is_active
  | none => false

/-- The subscriber record as it is stored and later returned by
`getActiveSubscribers`: the caller's fields after the `|| null` coalescing. -/
def normSubscriber (s : Subscriber) : Subscriber :=
  { chatId := s.chatId
    username := normOpt s.username
    firstName := normOpt s.firstName
    lastName := normOpt s.lastName }

/-! ## Availability client (src/index.ts, checkDrug) -/

/-- One match record of the availability source's response
(`response.data.result` entries), with the fields the code reads. -/
structure Pharmacy where
  storeName : String
  storeAddress : String
  storeDistrict : String
  storeWorkingTime : String
  drugName : String
deriving Repr, DecidableEq

/-- The `DrugCheckResult` interface of index.ts. -/
structure DrugCheckResult where
  isAvailable : Bool
  pharmacyCount : Option Nat
  pharmacies : Option (List Pharmacy)
deriving Repr, DecidableEq

/-- The JSON body of a 200 response: a `success` boolean (absent when the field
is missing) and a `result` match list (absent when missing or null; an empty
list is a present, truthy JS array). -/
structure ApiData where
  success : Option Bool
  result : Option (List Pharmacy)
deriving Repr, DecidableEq

/-- Outcome of the outbound `axios.get`: either the promise resolves with a
body (`ok`, body possibly empty/null), or axios rejects — timeout, network
error, or non-2xx HTTP status all reject and are indistinguishable to the
control flow of `checkDrug` (every rejection is rethrown). -/
inductive ApiOutcome where
  | ok (data : Option ApiData)
  | netError
deriving Repr, DecidableEq

/-- The error thrown by `checkDrug` (the spec's `QueryFailed`), by cause. -/
inductive CheckError where
  | apiError
  | unexpectedFormat
  | network
deriving Repr, DecidableEq

/-- `checkDrug` of index.ts as a function of the request outcome.  The drug
name only parameterises the outbound request (`nom: drugName.toLowerCase()`)
and the log lines.  Control flow of the source:
`if (response.data && response.data.success === false) throw`;
`if (response.data && response.data.success && response.data.result)` return
the parsed result (`isAvailable = pharmacies.length > 0`, full count, first 3
entries); `else throw` (unparseable shape); the catch block rethrows every
error. -/
def checkDrug (drugName : String) (outcome : ApiOutcome) :
    Except CheckError DrugCheckResult :=
  match drugName, outcome with
  | _, ApiOutcome.netError => Except.error CheckError.network
  | _, ApiOutcome.ok none => Except.error CheckError.unexpectedFormat
  | _, ApiOutcome.ok (some d) =>
    if d.success = some false then
      Except.error CheckError.apiError
    else
      match d.success, d.result with
      | some true, some pharmacies =>
        Except.ok
          { isAvailable := decide (0 < pharmacies.length)
            pharmacyCount := some pharmacies.length
            pharmacies := some (pharmacies.take 3) }
      | _, _ => Except.error CheckError.unexpectedFormat

/-! ## Environment, state and event trace of the engine -/

/-- Outcome of one `bot.sendMessage` attempt: success, rejection whose error
message contains `bot was blocked` (permanent), or any other rejection
(transient). -/
inductive DeliveryOutcome where
  | ok
  | blocked
  | transient
deriving Repr, DecidableEq

/-- Oracles for the external world during one entry-point invocation: the
availability source's response per (lower-cased) query string, and the
transport's outcome per (chatId, drug) delivery. -/
structure Env where
  api : String → ApiOutcome
  delivery : Int → String → DeliveryOutcome

/-- Externally visible events of a run, in order. -/
inductive Event where
  | apiCall (drug : String)
  | fetchSubscribers
  | fanout (drug : String)
  | deliver (chatId : Int) (drug : String) (outcome : DeliveryOutcome)
  | deactivate (chatId : Int)
deriving Repr, DecidableEq

/-- The module-level mutable state of index.ts: the subscriber database, the
`apiErrorDrugs : Set<string>` (as its insertion-ordered element list), the
`retryTimer` (only its pending-ness is observable), and the `isChecking`
flag. -/
structure St where
  db : DB
  apiErrorDrugs : List String
  retryPending : Bool
  isChecking : Bool
deriving Repr, DecidableEq

/-- `Set.add` of a JS `Set<string>` on its insertion-ordered element list. -/
def addToSet (d : String) (s : List String) : List String :=
  if d ∈ s then s else s ++ [d]

/-! ## Notification fan-out (src/index.ts, sendNotificationToSubscribers) -/

/-- The per-recipient delivery loop of `sendNotificationToSubscribers`: for
each subscriber of the fetched list, in order, attempt delivery; on success
count it; on failure count it and, exactly when the error message contains
`bot was blocked`, call `removeSubscriber(subscriber.chatId)`.  The loop body
is wrapped in try/catch, so no outcome stops the iteration. -/
def fanoutLoop (env : Env) (drugName : String) (subs : List Subscriber)
    (db : DB) : DB × List Event :=
  match subs with
  | [] => (db, [])
  | s :: rest =>
    match env.delivery s.chatId drugName with
    | DeliveryOutcome.ok =>
      let p := fanoutLoop env drugName rest db
      (p.1, Event.deliver s.chatId drugName DeliveryOutcome.ok :: p.2)
    | DeliveryOutcome.blocked =>
      let db' := (removeSubscriber s.chatId db).1
      let p := fanoutLoop env drugName rest db'
      (p.1, Event.deliver s.chatId drugName DeliveryOutcome.blocked ::
            Event.deactivate s.chatId :: p.2)
    | DeliveryOutcome.transient =>
      let p := fanoutLoop env drugName rest db
      (p.1, Event.deliver s.chatId drugName DeliveryOutcome.transient :: p.2)

set_option linter.unusedVariables false in
/-- `sendNotificationToSubscribers` of index.ts: fetches the active subscriber
list itself (first line of the function), returns immediately when it is
empty, otherwise formats the message from `result` and runs the delivery loop.
The function never throws: every per-recipient error is caught inside the
loop.  The `result` argument only determines the message text. -/
def sendNotificationToSubscribers (env : Env) (drugName : String)
    (result : DrugCheckResult) (st : St) : St × List Event :=
  let subs := getActiveSubscribers st.db
  if subs.isEmpty then
    (st, [Event.fanout drugName, Event.fetchSubscribers])
  else
    let p := fanoutLoop env drugName subs st.db
    ({ st with db := p.1 },
     Event.fanout drugName :: Event.fetchSubscribers :: p.2)

/-! ## Run orchestrator (src/index.ts, checkAllDrugs) -/

/-- JavaScript `s.split(',')` over the character list: splits at every comma
and keeps empty segments (`split` never drops a segment; for the empty string
it yields one empty segment). -/
def splitOnComma : List Char → List (List Char)
  | [] => [[]]
  | ch :: rest =>
    if ch = ',' then [] :: splitOnComma rest
    else
      match splitOnComma rest with
      | [] => [[ch]]
      | g :: gs => (ch :: g) :: gs

/-- JavaScript `String.prototype.trim`: strip whitespace from both ends. -/
def jsTrim (l : List Char) : List Char :=
  ((l.dropWhile Char.isWhitespace).reverse.dropWhile Char.isWhitespace).reverse

/-- JavaScript `s.toLowerCase()`, character-wise case folding. -/
def jsToLower (s : String) : String :=
  String.mk (s.data.map Char.toLower)

/-- `(process.env.DRUGS_TO_CHECK).split(',').map(d => d.trim())`. -/
def parseDrugList (cfg : String) : List String :=
  (splitOnComma cfg.data).map (fun cs => String.mk (jsTrim cs))

/-- Whether the availability check for `d` under `env` throws. -/
def checkFails (env : Env) (d : String) : Bool :=
  match checkDrug d (env.api (jsToLower d)) with
  | Except.ok _ => false
  | Except.error _ => true

/-- The per-item loop of `checkAllDrugs`: for each drug, in list order, call
`checkDrug`; on success call the fan-out; on error (caught per item) skip the
fan-out and add the drug to `apiErrorDrugs`; then continue with the next
drug. -/
def runItems (env : Env) (drugs : List String) (st : St) : St × List Event :=
  match drugs with
  | [] => (st, [])
  | drug :: rest =>
    match checkDrug drug (env.api (jsToLower drug)) with
    | Except.ok result =>
      let p := sendNotificationToSubscribers env drug result st
      let q := runItems env rest p.1
      (q.1, Event.apiCall drug :: (p.2 ++ q.2))
    | Except.error _ =>
      let st' := { st with apiErrorDrugs := addToSet drug st.apiErrorDrugs }
      let q := runItems env rest st'
      (q.1, Event.apiCall drug :: q.2)

/-- `scheduleRetryForErrors` of index.ts: when `apiErrorDrugs` is non-empty,
clear any still-pending retry timer and schedule a new one (the timer callback
reads the then-current `apiErrorDrugs`; the set itself is not touched here).
With at most one timer pending, cancel-then-reschedule leaves exactly one
pending timer, modelled by `retryPending := true`. -/
def scheduleRetryForErrors (st : St) : St :=
  if 0 < st.apiErrorDrugs.length then { st with retryPending := true } else st

/-- `checkAllDrugs` of index.ts: if `isChecking` is set, log and return (the
skipped invocation performs no availability call, no registry access and no
state change); otherwise set the flag, resolve the drug list, fetch the active
subscriber list once for the log line, run the per-item loop, call
`scheduleRetryForErrors`, and finally (unconditionally) clear the flag. -/
def checkAllDrugs (env : Env) (cfg : String) (st : St) : St × List Event :=
  if st.isChecking then (st, [])
  else
    let drugs := parseDrugList cfg
    let st₀ := { st with isChecking := true }
    let p := runItems env drugs st₀
    let st₁ := scheduleRetryForErrors p.1
    ({ st₁ with isChecking := false }, Event.fetchSubscribers :: p.2)

/-! ## Retry coordinator (src/index.ts, the deferred timer callback) -/

/-- The per-item loop of the retry wave: identical to the main loop except
that a drug failing again is only logged — it is not re-added to
`apiErrorDrugs` and no further retry is scheduled. -/
def retryLoop (env : Env) (drugs : List String) (st : St) : St × List Event :=
  match drugs with
  | [] => (st, [])
  | drug :: rest =>
    match checkDrug drug (env.api (jsToLower drug)) with
    | Except.ok result =>
      let p := sendNotificationToSubscribers env drug result st
      let q := retryLoop env rest p.1
      (q.1, Event.apiCall drug :: (p.2 ++ q.2))
    | Except.error _ =>
      let q := retryLoop env rest st
      (q.1, Event.apiCall drug :: q.2)

/-- The `setTimeout` callback installed by `scheduleRetryForErrors`, executed
when the pending timer fires (a cancelled timer never fires): if
`apiErrorDrugs` is non-empty, snapshot it (`Array.from`, insertion order),
clear the set, and run the retry loop over the snapshot. -/
def retryCallback (env : Env) (st : St) : St × List Event :=
  if st.retryPending then
    let st₀ := { st with retryPending := false }
    if 0 < st₀.apiErrorDrugs.length then
      let drugsToRetry := st₀.apiErrorDrugs
      retryLoop env drugsToRetry { st₀ with apiErrorDrugs := [] }
    else (st₀, [])
  else (st, [])

/-! ## Trace projections -/

/-- Drugs for which an availability query was issued, in order. -/
def apiCalls : List Event → List String
  | [] => []
  | Event.apiCall d :: es => d :: apiCalls es
  | _ :: es => apiCalls es

/-- Drugs for which the fan-out was invoked, in order. -/
def fanouts : List Event → List String
  | [] => []
  | Event.fanout d :: es => d :: fanouts es
  | _ :: es => fanouts es

/-- Number of fetches of the active-subscriber list from the registry. -/
def countFetches : List Event → Nat
  | [] => 0
  | Event.fetchSubscribers :: es => countFetches es + 1
  | _ :: es => countFetches es

/-- Chat ids of every delivery attempt, in order. -/
def deliveryTargets : List Event → List Int
  | [] => []
  | Event.deliver c _ _ :: es => c :: deliveryTargets es
  | _ :: es => deliveryTargets es

/-- Chat ids of the delivery attempts for one particular drug, in order. -/
def deliveriesFor (drug : String) : List Event → List Int
  | [] => []
  | Event.deliver c d _ :: es =>
    if d = drug then c :: deliveriesFor drug es else deliveriesFor drug es
  | _ :: es => deliveriesFor drug es

/-- Chat ids deactivated in the registry, in order. -/
def deactivations : List Event → List Int
  | [] => []
  | Event.deactivate c :: es => c :: deactivations es
  | _ :: es => deactivations es

/-! ## Concrete sample data for witnesses and counterexamples -/

/-- A sample match record. -/
def samplePharmacy : Pharmacy :=
  { storeName := "Pharmacy 1"
    storeAddress := "Nevsky 1"
    storeDistrict := "Central"
    storeWorkingTime := "9-21"
    drugName := "pentasa 500" }

/-- An environment in which drug `a` fails with a network error, drug `b`
succeeds with no matches, and every delivery succeeds. -/
def envAfails : Env :=
  { api := fun d =>
      if d = "a" then ApiOutcome.netError
      else ApiOutcome.ok (some { success := some true, result := some [] })
    delivery := fun _ _ => DeliveryOutcome.ok }

/-- An environment in which drug `b` fails with a network error, every other
drug succeeds with no matches, and every delivery succeeds. -/
def envBfails : Env :=
  { api := fun d =>
      if d = "b" then ApiOutcome.netError
      else ApiOutcome.ok (some { success := some true, result := some [] })
    delivery := fun _ _ => DeliveryOutcome.ok }

/-- An environment in which every drug succeeds (one match) and delivery to
chat 1 fails permanently (`bot was blocked`) while every other delivery
succeeds. -/
def envBlocked1 : Env :=
  { api := fun _ => ApiOutcome.ok (some { success := some true, result := some [samplePharmacy] })
    delivery := fun c _ => if c = 1 then DeliveryOutcome.blocked else DeliveryOutcome.ok }

/-- A database with two active subscribers, chat ids 1 and 2. -/
def dbTwoActive : DB :=
  [ { chat_id := 1, username := some "u1", first_name := none, last_name := none, is_active := true }
  , { chat_id := 2, username := some "u2", first_name := none, last_name := none, is_active := true } ]

/-- The initial engine state over an empty database. -/
def st0 : St :=
  { db := [], apiErrorDrugs := [], retryPending := false, isChecking := false }

/-- An idle state over `dbTwoActive`. -/
def stTwo : St :=
  { db := dbTwoActive, apiErrorDrugs := [], retryPending := false, isChecking := false }

/-- A state captured mid-run: the guard is held. -/
def stBusy : St :=
  { db := dbTwoActive, apiErrorDrugs := ["a"], retryPending := false, isChecking := true }

/-- A state with a pending retry wave for two accumulated drugs. -/
def stPending : St :=
  { db := [], apiErrorDrugs := ["a", "b"], retryPending := true, isChecking := false }

/-- A single table row for chat id 1 that is already inactive. -/
def rowInactive : Row :=
  { chat_id := 1, username := none, first_name := none, last_name := none, is_active := false }

/-- A subscriber record whose username is the empty string. -/
def emptySub : Subscriber :=
  { chatId := 1, username := some "", firstName := none, lastName := none }

/-! ## Helper lemmas: database -/

theorem normOpt_idem (x : Option String) : normOpt (normOpt x) = normOpt x := by
  cases x with
  | none => rfl
  | some s =>
    by_cases h : s = ""
    · simp [normOpt, h]
    · simp [normOpt, h]

theorem insertRow_self_mem (row : Row) (db : DB) : row ∈ insertRow row db := by
  induction db with
  | nil => simp [insertRow]
  | cons r rs ih =>
    by_cases h1 : row.chat_id < r.chat_id
    · simp [insertRow, h1]
    · by_cases h2 : row.chat_id = r.chat_id
      · simp [insertRow, h1, h2]
      · simp only [insertRow, if_neg h1, if_neg h2]
        exact List.mem_cons_of_mem r ih

theorem insertRow_find?_self (row : Row) (db : DB) :
    (insertRow row db).find? (fun r => r.chat_id = row.chat_id) = some row := by
  induction db with
  | nil =>
    simp only [insertRow]
    exact List.find?_cons_of_pos _ (by simp)
  | cons r rs ih =>
    by_cases h1 : row.chat_id < r.chat_id
    · simp only [insertRow, if_pos h1]
      exact List.find?_cons_of_pos _ (by simp)
    · by_cases h2 : row.chat_id = r.chat_id
      · simp only [insertRow, if_neg h1, if_pos h2]
        exact List.find?_cons_of_pos _ (by simp)
      · have hne : ¬(r.chat_id = row.chat_id) := by omega
        simp only [insertRow, if_neg h1, if_neg h2]
        rw [List.find?_cons_of_neg _ (by simp [hne])]
        exact ih

theorem removeSubscriber_isSubscribed (x c : Int) (db : DB) :
    isSubscribed c (removeSubscriber x db).1
      = if c = x then false else isSubscribed c db := by
  have hpf : ((fun r : Row => decide (r.chat_id = c)) ∘
      (fun r : Row => if r.chat_id = x then { r with is_active := false } else r))
      = (fun r : Row => decide (r.chat_id = c)) := by
    funext r
    by_cases h : r.chat_id = x <;> simp [h]
  simp only [removeSubscriber, isSubscribed, List.find?_map, hpf]
  cases hf : db.find? (fun r => decide (r.chat_id = c)) with
  | none => simp
  | some r =>
    have hrc : r.chat_id = c := by
      have := List.find?_some hf
      simpa using this
    by_cases hcx : c = x
    · simp [Option.map, hrc, hcx]
    · have hrx : ¬(r.chat_id = x) := by omega
      simp [Option.map, hrx, hcx]

/-! ## Claim theorems: subscriber registry -/

/-- C9 counterexample: over a database whose single row for chat id 1 is
already inactive, `removeSubscriber 1` returns `true` although the recipient
was not active immediately before the call (`isSubscribed 1` is `false`), so
"returns true if and only if the recipient was active" fails. -/
theorem removeSubscriber_counterexample :
    isSubscribed 1 [rowInactive] = false
    ∧ (removeSubscriber 1 [rowInactive]).2 = true := by
  decide

/-- C9 amended: `removeSubscriber chatId` returns `true` if and only if some
row with that `chat_id` exists in the table — active or not — because the
returned boolean is sqlite's matched-row count of the unconditional
`UPDATE ... SET is_active = 0`; it returns `false` exactly when no such row
exists. -/
theorem removeSubscriber_returns_existence (chatId : Int) (db : DB) :
    (removeSubscriber chatId db).2 = db.any (fun r => r.chat_id = chatId) := by
  induction db with
  | nil => rfl
  | cons r rs ih =>
    simp only [removeSubscriber] at ih ⊢
    by_cases h : r.chat_id = chatId
    · simp [List.filter, List.any_cons, h]
    · simp only [List.filter, List.any_cons, h]
      simp [h] at ih ⊢
      exact ih

/-- C10 counterexample: for the subscriber record with chat id 1 and an
empty-string username, `addSubscriber` stores the username as NULL (the code
coalesces falsy fields with `|| null`), so after the call the record itself
does not appear in `getActiveSubscribers` (the returned record has no
username), even though the subscription is active. -/
theorem addSubscriber_counterexample :
    isSubscribed 1 (addSubscriber emptySub []) = true
    ∧ emptySub ∉ getActiveSubscribers (addSubscriber emptySub []) := by
  decide

/-- C10 amended: after `addSubscriber s` the subscriber is active against any
prior database state — `isSubscribed s.chatId` returns `true` (also when the
chat id had been deactivated via `removeSubscriber`), the record for
`s.chatId` as looked up by chat id is exactly the freshly written row (old
username and name fields overwritten by the new values, with empty-string
fields stored as absent), and that record appears in `getActiveSubscribers`
with the new fields after the empty-string normalization. -/
theorem addSubscriber_reactivates (s : Subscriber) (db : DB) :
    isSubscribed s.chatId (addSubscriber s db) = true
    ∧ (addSubscriber s db).find? (fun r => r.chat_id = s.chatId) = some (subscriberRow s)
    ∧ normSubscriber s ∈ getActiveSubscribers (addSubscriber s db) := by
  have hfind : (addSubscriber s db).find? (fun r => r.chat_id = s.chatId)
      = some (subscriberRow s) := by
    have h := insertRow_find?_self (subscriberRow s) db
    simpa [addSubscriber, subscriberRow] using h
  refine ⟨?_, hfind, ?_⟩
  · simp [isSubscribed, hfind, subscriberRow]
  · have hmem : subscriberRow s ∈ addSubscriber s db :=
      insertRow_self_mem (subscriberRow s) db
    have hact : (subscriberRow s).is_active = true := rfl
    have : subscriberRow s ∈ (addSubscriber s db).filter (fun r => r.is_active) := by
      simp [List.mem_filter, hmem, hact]
    have hmap := List.mem_map_of_mem rowToSubscriber this
    have heq : rowToSubscriber (subscriberRow s) = normSubscriber s := by
      simp [rowToSubscriber, subscriberRow, normSubscriber, normOpt_idem]
    rw [heq] at hmap
    exact hmap

/-! ## Helper lemmas: fan-out traces -/

theorem fanoutLoop_apiCalls (env : Env) (d : String) (subs : List Subscriber) (db : DB) :
    apiCalls (fanoutLoop env d subs db).2 = [] := by
  induction subs generalizing db with
  | nil => rfl
  | cons s rest ih =>
    cases h : env.delivery s.chatId d <;> simp [fanoutLoop, h, apiCalls, ih]

theorem fanoutLoop_fanouts (env : Env) (d : String) (subs : List Subscriber) (db : DB) :
    fanouts (fanoutLoop env d subs db).2 = [] := by
  induction subs generalizing db with
  | nil => rfl
  | cons s rest ih =>
    cases h : env.delivery s.chatId d <;> simp [fanoutLoop, h, fanouts, ih]

theorem fanoutLoop_countFetches (env : Env) (d : String) (subs : List Subscriber) (db : DB) :
    countFetches (fanoutLoop env d subs db).2 = 0 := by
  induction subs generalizing db with
  | nil => rfl
  | cons s rest ih =>
    cases h : env.delivery s.chatId d <;> simp [fanoutLoop, h, countFetches, ih]

theorem fanoutLoop_deliveryTargets (env : Env) (d : String) (subs : List Subscriber) (db : DB) :
    deliveryTargets (fanoutLoop env d subs db).2 = subs.map (fun s => s.chatId) := by
  induction subs generalizing db with
  | nil => rfl
  | cons s rest ih =>
    cases h : env.delivery s.chatId d <;> simp [fanoutLoop, h, deliveryTargets, ih]

theorem fanoutLoop_deactivations (env : Env) (d : String) (subs : List Subscriber) (db : DB) :
    deactivations (fanoutLoop env d subs db).2
      = ((subs.filter (fun s => env.delivery s.chatId d = DeliveryOutcome.blocked)).map
          (fun s => s.chatId)) := by
  induction subs generalizing db with
  | nil => rfl
  | cons s rest ih =>
    cases h : env.delivery s.chatId d <;>
      simp [fanoutLoop, h, deactivations, List.filter_cons, ih]

theorem fanoutLoop_isSubscribed (env : Env) (d : String) (subs : List Subscriber)
    (db : DB) (c : Int) :
    isSubscribed c (fanoutLoop env d subs db).1
      = (isSubscribed c db &&
         !(((subs.filter (fun s => env.delivery s.chatId d = DeliveryOutcome.blocked)).map
             (fun s => s.chatId)).contains c)) := by
  induction subs generalizing db with
  | nil => simp [fanoutLoop]
  | cons s rest ih =>
    cases h : env.delivery s.chatId d with
    | ok => simp [fanoutLoop, h, List.filter_cons, ih]
    | transient => simp [fanoutLoop, h, List.filter_cons, ih]
    | blocked =>
      simp only [fanoutLoop, h]
      rw [ih, removeSubscriber_isSubscribed]
      by_cases hc : c = s.chatId
      · simp [hc, List.filter_cons, h]
      · have hb : (c == s.chatId) = false := beq_eq_false_iff_ne.mpr hc
        simp [hc, List.filter_cons, h, List.contains_cons, hb]

theorem sendNotification_deliveryTargets (env : Env) (d : String)
    (result : DrugCheckResult) (st : St) :
    deliveryTargets (sendNotificationToSubscribers env d result st).2
      = (getActiveSubscribers st.db).map (fun s => s.chatId) := by
  by_cases h : (getActiveSubscribers st.db).isEmpty
  · have : getActiveSubscribers st.db = [] := by simpa [List.isEmpty_iff] using h
    simp [sendNotificationToSubscribers, h, this, deliveryTargets]
  · simp [sendNotificationToSubscribers, h, deliveryTargets,
      fanoutLoop_deliveryTargets]

theorem sendNotification_deactivations (env : Env) (d : String)
    (result : DrugCheckResult) (st : St) :
    deactivations (sendNotificationToSubscribers env d result st).2
      = (((getActiveSubscribers st.db).filter
            (fun s => env.delivery s.chatId d = DeliveryOutcome.blocked)).map
          (fun s => s.chatId)) := by
  by_cases h : (getActiveSubscribers st.db).isEmpty
  · have : getActiveSubscribers st.db = [] := by simpa [List.isEmpty_iff] using h
    simp [sendNotificationToSubscribers, h, this, deactivations]
  · simp [sendNotificationToSubscribers, h, deactivations,
      fanoutLoop_deactivations]

theorem sendNotification_isSubscribed (env : Env) (d : String)
    (result : DrugCheckResult) (st : St) (c : Int) :
    isSubscribed c (sendNotificationToSubscribers env d result st).1.db
      = (isSubscribed c st.db &&
         !((((getActiveSubscribers st.db).filter
              (fun s => env.delivery s.chatId d = DeliveryOutcome.blocked)).map
            (fun s => s.chatId)).contains c)) := by
  by_cases h : (getActiveSubscribers st.db).isEmpty
  · have : getActiveSubscribers st.db = [] := by simpa [List.isEmpty_iff] using h
    simp [sendNotificationToSubscribers, h, this]
  · simp [sendNotificationToSubscribers, h, fanoutLoop_isSubscribed]

theorem sendNotification_apiCalls (env : Env) (d : String)
    (result : DrugCheckResult) (st : St) :
    apiCalls (sendNotificationToSubscribers env d result st).2 = [] := by
  by_cases h : (getActiveSubscribers st.db).isEmpty
  · simp [sendNotificationToSubscribers, h, apiCalls]
  · simp [sendNotificationToSubscribers, h, apiCalls, fanoutLoop_apiCalls]

theorem sendNotification_fanouts (env : Env) (d : String)
    (result : DrugCheckResult) (st : St) :
    fanouts (sendNotificationToSubscribers env d result st).2 = [d] := by
  by_cases h : (getActiveSubscribers st.db).isEmpty
  · simp [sendNotificationToSubscribers, h, fanouts]
  · simp [sendNotificationToSubscribers, h, fanouts, fanoutLoop_fanouts]

theorem sendNotification_countFetches (env : Env) (d : String)
    (result : DrugCheckResult) (st : St) :
    countFetches (sendNotificationToSubscribers env d result st).2 = 1 := by
  by_cases h : (getActiveSubscribers st.db).isEmpty
  · simp [sendNotificationToSubscribers, h, countFetches]
  · simp [sendNotificationToSubscribers, h, countFetches, fanoutLoop_countFetches]

theorem sendNotification_apiErrorDrugs (env : Env) (d : String)
    (result : DrugCheckResult) (st : St) :
    (sendNotificationToSubscribers env d result st).1.apiErrorDrugs = st.apiErrorDrugs := by
  by_cases h : (getActiveSubscribers st.db).isEmpty <;>
    simp [sendNotificationToSubscribers, h]

theorem sendNotification_retryPending (env : Env) (d : String)
    (result : DrugCheckResult) (st : St) :
    (sendNotificationToSubscribers env d result st).1.retryPending = st.retryPending := by
  by_cases h : (getActiveSubscribers st.db).isEmpty <;>
    simp [sendNotificationToSubscribers, h]

theorem sendNotification_isChecking (env : Env) (d : String)
    (result : DrugCheckResult) (st : St) :
    (sendNotificationToSubscribers env d result st).1.isChecking = st.isChecking := by
  by_cases h : (getActiveSubscribers st.db).isEmpty <;>
    simp [sendNotificationToSubscribers, h]

/-! ## Claim theorem: fan-out isolation (C8) -/

/-- C8: the fan-out attempts delivery to every recipient of the list it
fetched, sequentially in list order — a failed delivery never prevents the
remaining attempts — and exactly the recipients whose delivery fails with the
permanent `bot was blocked` signal are deactivated in the registry; transient
failures deactivate no one, and the fan-out is a total function that returns
normally to the run (every per-recipient error is caught inside its loop). -/
theorem fanout_isolation_and_deactivation (env : Env) (drug : String)
    (result : DrugCheckResult) (st : St) :
    deliveryTargets (sendNotificationToSubscribers env drug result st).2
      = (getActiveSubscribers st.db).map (fun s => s.chatId)
    ∧ deactivations (sendNotificationToSubscribers env drug result st).2
      = (((getActiveSubscribers st.db).filter
            (fun s => env.delivery s.chatId drug = DeliveryOutcome.blocked)).map
          (fun s => s.chatId))
    ∧ ∀ c : Int,
        isSubscribed c (sendNotificationToSubscribers env drug result st).1.db
          = (isSubscribed c st.db &&
             !(deactivations (sendNotificationToSubscribers env drug result st).2).contains c) := by
  refine ⟨sendNotification_deliveryTargets env drug result st,
          sendNotification_deactivations env drug result st, ?_⟩
  intro c
  rw [sendNotification_deactivations env drug result st]
  exact sendNotification_isSubscribed env drug result st c

/-! ## Helper lemmas: trace projections over append -/

theorem apiCalls_append (l1 l2 : List Event) :
    apiCalls (l1 ++ l2) = apiCalls l1 ++ apiCalls l2 := by
  induction l1 with
  | nil => rfl
  | cons e es ih => cases e <;> simp [apiCalls, ih]

theorem fanouts_append (l1 l2 : List Event) :
    fanouts (l1 ++ l2) = fanouts l1 ++ fanouts l2 := by
  induction l1 with
  | nil => rfl
  | cons e es ih => cases e <;> simp [fanouts, ih]

theorem countFetches_append (l1 l2 : List Event) :
    countFetches (l1 ++ l2) = countFetches l1 + countFetches l2 := by
  induction l1 with
  | nil => simp [countFetches]
  | cons e es ih => cases e <;> simp [countFetches, ih, Nat.add_right_comm]

theorem fanout_event_mem (d : String) (evs : List Event) :
    Event.fanout d ∈ evs ↔ d ∈ fanouts evs := by
  induction evs with
  | nil => simp [fanouts]
  | cons e es ih => cases e <;> simp [fanouts, ih]

/-! ## Helper lemmas: the failed-item set -/

theorem mem_addToSet (x d : String) (s : List String) :
    x ∈ addToSet d s ↔ x ∈ s ∨ x = d := by
  by_cases h : d ∈ s
  · simp only [addToSet, if_pos h]
    constructor
    · exact Or.inl
    · rintro (hx | rfl)
      · exact hx
      · exact h
  · simp [addToSet, h, List.mem_append]

theorem mem_foldl_addToSet (l s : List String) (x : String) (hx : x ∈ s ∨ x ∈ l) :
    x ∈ l.foldl (fun acc d => addToSet d acc) s := by
  induction l generalizing s with
  | nil =>
    rcases hx with hx | hx
    · simpa using hx
    · simp at hx
  | cons d rest ih =>
    simp only [List.foldl_cons]
    apply ih
    rcases hx with hx | hx
    · exact Or.inl ((mem_addToSet x d s).mpr (Or.inl hx))
    · rcases List.mem_cons.mp hx with rfl | hx
      · exact Or.inl ((mem_addToSet x x s).mpr (Or.inr rfl))
      · exact Or.inr hx

theorem foldl_addToSet_extends (l s : List String) :
    ∃ extra, l.foldl (fun acc d => addToSet d acc) s = s ++ extra := by
  induction l generalizing s with
  | nil => exact ⟨[], by simp⟩
  | cons d rest ih =>
    rcases ih (addToSet d s) with ⟨e, he⟩
    by_cases hd : d ∈ s
    · refine ⟨e, ?_⟩
      simpa [addToSet, hd] using he
    · refine ⟨d :: e, ?_⟩
      rw [List.foldl_cons, he]
      simp [addToSet, hd]

/-! ## Helper lemmas: the main per-item loop -/

theorem runItems_apiCalls (env : Env) (drugs : List String) (st : St) :
    apiCalls (runItems env drugs st).2 = drugs := by
  induction drugs generalizing st with
  | nil => rfl
  | cons drug rest ih =>
    simp only [runItems]
    cases h : checkDrug drug (env.api (jsToLower drug)) with
    | ok result =>
      simp [apiCalls, apiCalls_append, sendNotification_apiCalls, ih]
    | error e => simp [apiCalls, ih]

theorem runItems_fanouts (env : Env) (drugs : List String) (st : St) :
    fanouts (runItems env drugs st).2
      = drugs.filter (fun d => !(checkFails env d)) := by
  induction drugs generalizing st with
  | nil => rfl
  | cons drug rest ih =>
    simp only [runItems]
    cases h : checkDrug drug (env.api (jsToLower drug)) with
    | ok result =>
      have hcf : checkFails env drug = false := by simp [checkFails, h]
      simp [fanouts, fanouts_append, sendNotification_fanouts, ih,
        List.filter_cons, hcf]
    | error e =>
      have hcf : checkFails env drug = true := by simp [checkFails, h]
      simp [fanouts, ih, List.filter_cons, hcf]

theorem runItems_countFetches (env : Env) (drugs : List String) (st : St) :
    countFetches (runItems env drugs st).2
      = (drugs.filter (fun d => !(checkFails env d))).length := by
  induction drugs generalizing st with
  | nil => rfl
  | cons drug rest ih =>
    simp only [runItems]
    cases h : checkDrug drug (env.api (jsToLower drug)) with
    | ok result =>
      have hcf : checkFails env drug = false := by simp [checkFails, h]
      simp [countFetches, countFetches_append, sendNotification_countFetches,
        ih, List.filter_cons, hcf]
      omega
    | error e =>
      have hcf : checkFails env drug = true := by simp [checkFails, h]
      simp [countFetches, ih, List.filter_cons, hcf]

theorem runItems_apiErrorDrugs (env : Env) (drugs : List String) (st : St) :
    (runItems env drugs st).1.apiErrorDrugs
      = (drugs.filter (checkFails env)).foldl (fun acc d => addToSet d acc)
          st.apiErrorDrugs := by
  induction drugs generalizing st with
  | nil => rfl
  | cons drug rest ih =>
    simp only [runItems]
    cases h : checkDrug drug (env.api (jsToLower drug)) with
    | ok result =>
      have hcf : checkFails env drug = false := by simp [checkFails, h]
      simp [ih, sendNotification_apiErrorDrugs, List.filter_cons, hcf]
    | error e =>
      have hcf : checkFails env drug = true := by simp [checkFails, h]
      simp [ih, List.filter_cons, hcf]

theorem runItems_isChecking (env : Env) (drugs : List String) (st : St) :
    (runItems env drugs st).1.isChecking = st.isChecking := by
  induction drugs generalizing st with
  | nil => rfl
  | cons drug rest ih =>
    simp only [runItems]
    cases h : checkDrug drug (env.api (jsToLower drug)) with
    | ok result => simp [ih, sendNotification_isChecking]
    | error e => simp [ih]

theorem runItems_retryPending (env : Env) (drugs : List String) (st : St) :
    (runItems env drugs st).1.retryPending = st.retryPending := by
  induction drugs generalizing st with
  | nil => rfl
  | cons drug rest ih =>
    simp only [runItems]
    cases h : checkDrug drug (env.api (jsToLower drug)) with
    | ok result => simp [ih, sendNotification_retryPending]
    | error e => simp [ih]

/-! ## Helper lemmas: the retry-wave loop -/

theorem retryLoop_apiCalls (env : Env) (drugs : List String) (st : St) :
    apiCalls (retryLoop env drugs st).2 = drugs := by
  induction drugs generalizing st with
  | nil => rfl
  | cons drug rest ih =>
    simp only [retryLoop]
    cases h : checkDrug drug (env.api (jsToLower drug)) with
    | ok result =>
      simp [apiCalls, apiCalls_append, sendNotification_apiCalls, ih]
    | error e => simp [apiCalls, ih]

theorem retryLoop_apiErrorDrugs (env : Env) (drugs : List String) (st : St) :
    (retryLoop env drugs st).1.apiErrorDrugs = st.apiErrorDrugs := by
  induction drugs generalizing st with
  | nil => rfl
  | cons drug rest ih =>
    simp only [retryLoop]
    cases h : checkDrug drug (env.api (jsToLower drug)) with
    | ok result => simp [ih, sendNotification_apiErrorDrugs]
    | error e => simp [ih]

theorem retryLoop_retryPending (env : Env) (drugs : List String) (st : St) :
    (retryLoop env drugs st).1.retryPending = st.retryPending := by
  induction drugs generalizing st with
  | nil => rfl
  | cons drug rest ih =>
    simp only [retryLoop]
    cases h : checkDrug drug (env.api (jsToLower drug)) with
    | ok result => simp [ih, sendNotification_retryPending]
    | error e => simp [ih]

/-! ## Helper lemmas: orchestrator and retry entry points -/

theorem scheduleRetry_apiErrorDrugs (st : St) :
    (scheduleRetryForErrors st).apiErrorDrugs = st.apiErrorDrugs := by
  unfold scheduleRetryForErrors
  split <;> rfl

theorem checkAllDrugs_eq (env : Env) (cfg : String) (st : St)
    (h : st.isChecking = false) :
    checkAllDrugs env cfg st
      = ({ scheduleRetryForErrors
            (runItems env (parseDrugList cfg) { st with isChecking := true }).1
            with isChecking := false },
         Event.fetchSubscribers ::
           (runItems env (parseDrugList cfg) { st with isChecking := true }).2) := by
  simp [checkAllDrugs, h]

/-! ## Claim theorems: orchestrator, availability client, retry coordinator -/

/-- C1: the single-flight guard — an invocation of `checkAllDrugs` that
arrives while `isChecking` is `true` is a no-op: it returns with the state
unchanged and an empty event trace, so in particular it performs zero
availability-client calls, zero registry accesses and zero deliveries (only
the skip log line, which the trace does not record). -/
theorem singleFlight_skip (env : Env) (cfg : String) (st : St)
    (h : st.isChecking = true) :
    checkAllDrugs env cfg st = (st, []) := by
  simp [checkAllDrugs, h]

theorem singleFlight_skip_witness :
    stBusy.isChecking = true ∧ checkAllDrugs envAfails "a,b" stBusy = (stBusy, []) :=
  ⟨rfl, singleFlight_skip envAfails "a,b" stBusy rfl⟩

/-- C2: for every item name, on a successful, parseable query (`success` true
and a `result` list present) `checkDrug` returns a result whose availability
is `false` exactly when the match list is empty and `true` exactly when it is
non-empty, whose `pharmacyCount` is the full length of the match list, and
whose sample `pharmacies` are the first 3 entries in response order. -/
theorem availability_postcondition (name : String) (ms : List Pharmacy) :
    ∃ r, checkDrug name (ApiOutcome.ok (some { success := some true, result := some ms }))
        = Except.ok r
      ∧ (r.isAvailable = false ↔ ms = [])
      ∧ (r.isAvailable = true ↔ ms ≠ [])
      ∧ r.pharmacyCount = some ms.length
      ∧ r.pharmacies = some (ms.take 3) := by
  refine ⟨_, rfl, ?_, ?_, rfl, rfl⟩
  · simp [List.length_pos]
  · simp [List.length_pos]

/-- C3: failure classification of `checkDrug` — a timeout or network error
(the request rejects), a payload carrying an explicit `success === false`
flag, and a success payload the client cannot parse (no data, or no
`success`/`result` pair of the expected shape) each make `checkDrug` throw
`QueryFailed`; and conversely every non-throwing call arose from a parseable
success payload, so no failure is ever degraded to `availability = false`. -/
theorem queryFailed_classification (name : String) :
    checkDrug name ApiOutcome.netError = Except.error CheckError.network
    ∧ checkDrug name (ApiOutcome.ok none) = Except.error CheckError.unexpectedFormat
    ∧ (∀ d : ApiData, d.success = some false →
        checkDrug name (ApiOutcome.ok (some d)) = Except.error CheckError.apiError)
    ∧ (∀ d : ApiData, d.success ≠ some false →
        (∀ ms : List Pharmacy, ¬(d.success = some true ∧ d.result = some ms)) →
        checkDrug name (ApiOutcome.ok (some d)) = Except.error CheckError.unexpectedFormat)
    ∧ (∀ (outcome : ApiOutcome) (r : DrugCheckResult),
        checkDrug name outcome = Except.ok r →
        ∃ ms : List Pharmacy,
          outcome = ApiOutcome.ok (some { success := some true, result := some ms })
          ∧ r.isAvailable = decide (0 < ms.length)) := by
  refine ⟨rfl, rfl, ?_, ?_, ?_⟩
  · intro d hd
    simp [checkDrug, hd]
  · intro d hd hms
    obtain ⟨succ, res⟩ := d
    simp only [checkDrug]
    rw [if_neg hd]
    cases succ with
    | none => cases res <;> rfl
    | some b =>
      cases b with
      | false => exact absurd rfl hd
      | true =>
        cases res with
        | none => rfl
        | some ms => exact absurd ⟨rfl, rfl⟩ (hms ms)
  · intro outcome r h
    cases outcome with
    | netError => simp [checkDrug] at h
    | ok data =>
      cases data with
      | none => simp [checkDrug] at h
      | some d =>
        obtain ⟨succ, res⟩ := d
        by_cases hs : (succ : Option Bool) = some false
        · simp [checkDrug, hs] at h
        · cases succ with
          | none => cases res <;> simp [checkDrug, hs] at h
          | some b =>
            cases b with
            | false => exact absurd rfl hs
            | true =>
              cases res with
              | none => simp [checkDrug, hs] at h
              | some ms =>
                refine ⟨ms, rfl, ?_⟩
                have h' : Except.ok (ε := CheckError)
                    ({ isAvailable := decide (0 < ms.length)
                       pharmacyCount := some ms.length
                       pharmacies := some (ms.take 3) } : DrugCheckResult)
                    = Except.ok r := by
                  simpa [checkDrug, hs] using h
                injection h' with h''
                rw [← h'']

theorem queryFailed_classification_witness :
    checkDrug "pentasa" (ApiOutcome.ok (some { success := some false, result := none }))
      = Except.error CheckError.apiError :=
  (queryFailed_classification "pentasa").2.2.1 { success := some false, result := none } rfl

/-- C4: per-item failure isolation — in a run that passes the guard, every
configured item receives exactly one availability call in list order (a
failure never aborts the remainder), an item whose check throws gets no
fan-out invocation in that pass, and every failed item's name is added to
`apiErrorDrugs` (the new set is the old one extended, in order, by the failed
items). -/
theorem run_isolates_item_failures (env : Env) (cfg : String) (st : St)
    (h : st.isChecking = false) :
    apiCalls (checkAllDrugs env cfg st).2 = parseDrugList cfg
    ∧ (∀ d, checkFails env d = true →
        Event.fanout d ∉ (checkAllDrugs env cfg st).2)
    ∧ (checkAllDrugs env cfg st).1.apiErrorDrugs
        = ((parseDrugList cfg).filter (checkFails env)).foldl
            (fun acc d => addToSet d acc) st.apiErrorDrugs
    ∧ (∀ d ∈ parseDrugList cfg, checkFails env d = true →
        d ∈ (checkAllDrugs env cfg st).1.apiErrorDrugs) := by
  rw [checkAllDrugs_eq env cfg st h]
  refine ⟨?_, ?_, ?_, ?_⟩
  · simp [apiCalls, runItems_apiCalls]
  · intro d hd hmem
    rcases List.mem_cons.mp hmem with habs | hmem2
    · exact Event.noConfusion habs
    · have hf : d ∈ fanouts (runItems env (parseDrugList cfg)
          { st with isChecking := true }).2 := (fanout_event_mem d _).mp hmem2
      rw [runItems_fanouts] at hf
      have := List.of_mem_filter hf
      simp [hd] at this
  · show (scheduleRetryForErrors _).apiErrorDrugs = _
    rw [scheduleRetry_apiErrorDrugs, runItems_apiErrorDrugs]
  · intro d hd hdf
    show d ∈ (scheduleRetryForErrors _).apiErrorDrugs
    rw [scheduleRetry_apiErrorDrugs, runItems_apiErrorDrugs]
    exact mem_foldl_addToSet _ _ _ (Or.inr (List.mem_filter.mpr ⟨hd, hdf⟩))

theorem run_isolates_item_failures_witness :
    st0.isChecking = false
    ∧ (apiCalls (checkAllDrugs envAfails "a,b" st0).2 = parseDrugList "a,b"
       ∧ (∀ d, checkFails envAfails d = true →
           Event.fanout d ∉ (checkAllDrugs envAfails "a,b" st0).2)
       ∧ (checkAllDrugs envAfails "a,b" st0).1.apiErrorDrugs
           = ((parseDrugList "a,b").filter (checkFails envAfails)).foldl
               (fun acc d => addToSet d acc) st0.apiErrorDrugs
       ∧ (∀ d ∈ parseDrugList "a,b", checkFails envAfails d = true →
           d ∈ (checkAllDrugs envAfails "a,b" st0).1.apiErrorDrugs)) :=
  ⟨rfl, run_isolates_item_failures envAfails "a,b" st0 rfl⟩

/-- C5 counterexample: a run over items `a` and `b` against a registry
holding active recipients 1 and 2, where recipient 1's delivery fails
permanently during item `a`'s fan-out, fetches the recipient list three times
(once at run start plus once per fan-out call) — not "exactly once" — and
item `b`'s deliveries go only to recipient 2, not to the run-start snapshot
`[1, 2]`: a registry change mid-run does change who is notified for later
items. -/
theorem recipient_snapshot_counterexample :
    countFetches (checkAllDrugs envBlocked1 "a,b" stTwo).2 = 3
    ∧ (getActiveSubscribers stTwo.db).map (fun s => s.chatId) = [1, 2]
    ∧ deliveriesFor "b" (checkAllDrugs envBlocked1 "a,b" stTwo).2 = [2] := by
  decide

/-- C5 amended: the orchestrator fetches the recipient list once at run start
(used only for the log line), and each fan-out call fetches the active list
afresh — one fetch per successfully checked item — so a run performs
`1 + number of successful items` registry fetches, and each item's deliveries
go to the list current at that item's own fan-out call. -/
theorem recipient_fetch_per_fanout (env : Env) (cfg : String) (st : St)
    (h : st.isChecking = false) :
    countFetches (checkAllDrugs env cfg st).2
      = 1 + ((parseDrugList cfg).filter (fun d => !(checkFails env d))).length
    ∧ ∀ (d : String) (r : DrugCheckResult) (st' : St),
        deliveryTargets (sendNotificationToSubscribers env d r st').2
          = (getActiveSubscribers st'.db).map (fun s => s.chatId) := by
  refine ⟨?_, fun d r st' => sendNotification_deliveryTargets env d r st'⟩
  rw [checkAllDrugs_eq env cfg st h]
  simp [countFetches, runItems_countFetches, Nat.add_comm]

theorem recipient_fetch_per_fanout_witness :
    stTwo.isChecking = false
    ∧ (countFetches (checkAllDrugs envBlocked1 "a,b" stTwo).2
        = 1 + ((parseDrugList "a,b").filter (fun d => !(checkFails envBlocked1 d))).length
       ∧ ∀ (d : String) (r : DrugCheckResult) (st' : St),
           deliveryTargets (sendNotificationToSubscribers envBlocked1 d r st').2
             = (getActiveSubscribers st'.db).map (fun s => s.chatId)) :=
  ⟨rfl, recipient_fetch_per_fanout envBlocked1 "a,b" stTwo rfl⟩

/-- C6 counterexample: run 1 fails only item `a` (set `["a"]`, wave pending);
before the wave fires, run 2 fails only item `b` — on its own, run 2's
failure set is `["b"]` — and reschedules while the wave is pending.  The set
is now `["a", "b"]` and the wave that eventually executes queries both `a`
and `b`: the union of the old and new failure sets, with the superseded item
`a` not dropped. -/
theorem retry_supersession_counterexample :
    (checkAllDrugs envAfails "a,b" st0).1.apiErrorDrugs = ["a"]
    ∧ (checkAllDrugs envAfails "a,b" st0).1.retryPending = true
    ∧ (checkAllDrugs envBfails "a,b" st0).1.apiErrorDrugs = ["b"]
    ∧ (checkAllDrugs envBfails "a,b" (checkAllDrugs envAfails "a,b" st0).1).1.apiErrorDrugs
        = ["a", "b"]
    ∧ apiCalls (retryCallback envBfails
        (checkAllDrugs envBfails "a,b" (checkAllDrugs envAfails "a,b" st0).1).1).2
        = ["a", "b"] := by
  decide

/-- C6 amended: rescheduling while a wave is pending cancels the pending
timer, so at most one wave fires, but the superseded wave's item names are
not dropped: `apiErrorDrugs` only accumulates across runs (each run extends
it), and the wave that fires retries exactly the accumulated set — the union
of all failure sets since the last executed wave — and then clears it. -/
theorem retry_union_accumulates (env : Env) (cfg : String) (st : St)
    (h : st.retryPending = true) :
    apiCalls (retryCallback env st).2 = st.apiErrorDrugs
    ∧ (retryCallback env st).1.apiErrorDrugs = []
    ∧ ∃ extra, (checkAllDrugs env cfg st).1.apiErrorDrugs
        = st.apiErrorDrugs ++ extra := by
  refine ⟨?_, ?_, ?_⟩
  · by_cases hlen : 0 < st.apiErrorDrugs.length
    · simp [retryCallback, h, hlen, retryLoop_apiCalls]
    · have hempty : st.apiErrorDrugs = [] := by
        cases hl : st.apiErrorDrugs with
        | nil => rfl
        | cons x xs => rw [hl] at hlen; simp at hlen
      simp [retryCallback, h, hlen, hempty, apiCalls]
  · by_cases hlen : 0 < st.apiErrorDrugs.length
    · simp [retryCallback, h, hlen, retryLoop_apiErrorDrugs]
    · have hempty : st.apiErrorDrugs = [] := by
        cases hl : st.apiErrorDrugs with
        | nil => rfl
        | cons x xs => rw [hl] at hlen; simp at hlen
      simp [retryCallback, h, hlen, hempty]
  · by_cases hc : st.isChecking = true
    · exact ⟨[], by simp [checkAllDrugs, hc]⟩
    · have hcf : st.isChecking = false := by simpa using hc
      rw [checkAllDrugs_eq env cfg st hcf]
      show ∃ extra, (scheduleRetryForErrors _).apiErrorDrugs = _
      rw [scheduleRetry_apiErrorDrugs, runItems_apiErrorDrugs]
      exact foldl_addToSet_extends _ _

theorem retry_union_accumulates_witness :
    stPending.retryPending = true
    ∧ (apiCalls (retryCallback envBfails stPending).2 = stPending.apiErrorDrugs
       ∧ (retryCallback envBfails stPending).1.apiErrorDrugs = []
       ∧ ∃ extra, (checkAllDrugs envBfails "a,b" stPending).1.apiErrorDrugs
           = stPending.apiErrorDrugs ++ extra) :=
  ⟨rfl, retry_union_accumulates envBfails "a,b" stPending rfl⟩

/-- C7: retry-once — when a pending wave fires, the retry path clears
`apiErrorDrugs` before checking and never re-adds any item (also items that
fail again in the wave: their handler only logs), and it never schedules a
further retry: after the wave `apiErrorDrugs` is empty and no timer is
pending, so an item failing in both the main run and the wave is only checked
again by the next scheduled or manual full run. -/
theorem retry_once (env : Env) (st : St) (h : st.retryPending = true) :
    (retryCallback env st).1.apiErrorDrugs = []
    ∧ (retryCallback env st).1.retryPending = false := by
  by_cases hlen : 0 < st.apiErrorDrugs.length
  · simp [retryCallback, h, hlen, retryLoop_apiErrorDrugs, retryLoop_retryPending]
  · have hempty : st.apiErrorDrugs = [] := by
      cases hl : st.apiErrorDrugs with
      | nil => rfl
      | cons x xs => rw [hl] at hlen; simp at hlen
    simp [retryCallback, h, hlen, hempty]

theorem retry_once_witness :
    stPending.retryPending = true
    ∧ ((retryCallback envAfails stPending).1.apiErrorDrugs = []
       ∧ (retryCallback envAfails stPending).1.retryPending = false) :=
  ⟨rfl, retry_once envAfails stPending rfl⟩

end DrugCheck
